import Mathlib

/-!
Verification of the XeSSEngine shader-compilation subsystem.

This file gives a shallow embedding of the shader compiler, its two-tier
shader cache, backend selection, and the hot-reload check, translated from
`src/Graphics/ShaderCompiler/ShaderCompiler.cpp`, its header, and the
`Shader` implementation.  Machine integers are modelled as `Nat` with
explicit reduction modulo `2^64` / `2^32` where the C++ performs 64- or
32-bit arithmetic.  External components (the DXC and D3DCompile backends,
the filesystem, `std::hash`) are modelled as explicit parameters: the code
under verification only inspects their results, never their internals.
-/

namespace XeSS

/-- 2^64, the modulus of `uint64` arithmetic. -/
def U64 : Nat := 18446744073709551616

/-- 2^32, the modulus of `uint32` arithmetic. -/
def U32 : Nat := 4294967296

/-- `enum class ShaderModel : uint32` from ShaderCompiler.h. -/
inductive ShaderModel where
  | SM_5_0
  | SM_5_1
  | SM_6_0
  | SM_6_1
  | SM_6_2
  | SM_6_3
  | SM_6_4
deriving DecidableEq

/-- The underlying `uint32` value of each enumerator (`SM_5_0 = 0x50`, ...);
C++ `enum class` comparisons compare these values. -/
def ShaderModel.toNat : ShaderModel → Nat
  | .SM_5_0 => 0x50
  | .SM_5_1 => 0x51
  | .SM_6_0 => 0x60
  | .SM_6_1 => 0x61
  | .SM_6_2 => 0x62
  | .SM_6_3 => 0x63
  | .SM_6_4 => 0x64

/-- `enum class ShaderType : uint32` from ShaderCompiler.h. -/
inductive ShaderType where
  | Vertex
  | Hull
  | Domain
  | Geometry
  | Pixel
  | Compute
  | Amplification
  | Mesh
  | RayGeneration
  | Miss
  | ClosestHit
  | AnyHit
deriving DecidableEq

/-- `struct ShaderMacro { std::string name; std::string definition; }`
(renamed from `ShaderMacro` for the embedding). -/
structure ShaderMacroDef where
  name : String
  definition : String
deriving DecidableEq

/-- `struct CompileOptions` from ShaderCompiler.h.  `optimizationLevel` is a
`uint32`; we carry it as a `Nat` and add the `< 2^32` bound where a proof
needs it. -/
structure CompileOptions where
  targetModel : ShaderModel := .SM_6_4
  macros : List ShaderMacroDef := []
  includePaths : List String := []
  enableDebugInfo : Bool := false
  enableOptimization : Bool := true
  warningsAsErrors : Bool := false
  ieee754Compliance : Bool := false
  enableUnboundedResourceArrays : Bool := false
  optimizationLevel : Nat := 3
deriving DecidableEq

/-- `struct CompiledShader` from ShaderCompiler.h.  Bytes are `Nat`s; the
`D3D11_INPUT_ELEMENT_DESC` entries are external values modelled opaquely as
`Nat`s; the `unordered_map<string, uint32>` binding maps are association
lists. -/
structure CompiledShader where
  bytecode : List Nat := []
  disassembly : String := ""
  errors : List String := []
  warnings : List String := []
  success : Bool := false
  inputLayout : List Nat := []
  constantBufferBindings : List (String × Nat) := []
  textureBindings : List (String × Nat) := []
  samplerBindings : List (String × Nat) := []
  uavBindings : List (String × Nat) := []
deriving DecidableEq

/-- The default-constructed `CompiledShader result;`. -/
def emptyCompiledShader : CompiledShader := {}

/-- A compile request as accepted by `ShaderCompiler::CompileFromSource`:
source text, entry point, shader type, options and the (possibly empty)
source name used as cache key. -/
structure CompileRequest where
  source : String
  entryPoint : String
  shaderType : ShaderType
  options : CompileOptions
  sourceName : String
deriving DecidableEq

/-! ## Source-hash fingerprint (`ShaderCompiler::CalculateSourceHash`) -/

/-- One mixing step `hash ^= v + 0x9e3779b9 + (hash << 6) + (hash >> 2)`
in `uint64` arithmetic (the shift wraps modulo 2^64, the sum wraps modulo
2^64, and xor of values below 2^64 stays below 2^64). -/
def mixStep (h v : Nat) : Nat :=
  Nat.xor h ((v + 0x9e3779b9 + (h * 64) % U64 + h / 4) % U64)

/-- `ShaderCompiler::CalculateSourceHash(source, options)`.  `hasher` models
the implementation-defined `std::hash<std::string>`, reduced modulo 2^64
because `size_t` is 64-bit.  Note which fields participate: the source
text, `targetModel`, `enableDebugInfo`, `enableOptimization`,
`optimizationLevel`, and each macro as `name ++ "=" ++ definition`, in
order.  The entry point and shader type are not parameters of this
function, and `warningsAsErrors`, `ieee754Compliance`,
`enableUnboundedResourceArrays` and `includePaths` are not hashed. -/
def calculateSourceHash (hasher : String → Nat) (source : String)
    (options : CompileOptions) : Nat :=
  let h0 := hasher source % U64
  let h1 := mixStep h0 options.targetModel.toNat
  let h2 := mixStep h1 (if options.enableDebugInfo then 1 else 0)
  let h3 := mixStep h2 (if options.enableOptimization then 1 else 0)
  let h4 := mixStep h3 options.optimizationLevel
  options.macros.foldl
    (fun h m => mixStep h (hasher (m.name ++ "=" ++ m.definition) % U64)) h4

/-- The fingerprint of a whole compile request, i.e. what
`CompileFromSource` feeds to the cache: `CalculateSourceHash(source,
options)`. -/
def requestFingerprint (hasher : String → Nat) (r : CompileRequest) : Nat :=
  calculateSourceHash hasher r.source r.options

/-! ## Shader cache (`ShaderCache`) -/

/-- `ShaderCache::CacheEntry`. -/
structure CacheEntry where
  bytecode : List Nat
  hash : Nat
  timestamp : Nat
deriving DecidableEq

/-- The in-memory tier `m_memoryCache` is an `unordered_map<string,
CacheEntry>`, modelled as an association list with replace-on-insert
semantics, plus the configured cache directory. -/
structure ShaderCacheState where
  cacheDirectory : String := "cache/shaders/"
  memoryCache : List (String × CacheEntry) := []
deriving DecidableEq

/-- Lookup in an association list (the map lookup `m.find(key)`). -/
def lookupA {α : Type} : List (String × α) → String → Option α
  | [], _ => none
  | (k, v) :: rest, key => if key = k then some v else lookupA rest key

/-- Insert-or-replace in an association list (the map write `m[key] = v`). -/
def insertA {α : Type} (l : List (String × α)) (key : String) (v : α) :
    List (String × α) :=
  (key, v) :: l.filter (fun p => p.1 != key)

/-- `struct CacheHeader { char magic[4]; uint32 version; uint64 hash;
uint32 size; }`. -/
structure CacheHeader where
  magic : List Nat
  version : Nat
  hash : Nat
  size : Nat
deriving DecidableEq

/-- An on-disk cache file: the header followed by the payload bytes that
were written after it. -/
structure DiskFile where
  header : CacheHeader
  payload : List Nat
deriving DecidableEq

/-- The on-disk cache, a map from file path to file contents. -/
def Disk : Type := List (String × DiskFile)

/-- `CACHE_MAGIC` = the four bytes of "XESS". -/
def xessMagic : List Nat := [0x58, 0x45, 0x53, 0x53]

/-- `CACHE_VERSION`. -/
def cacheVersion : Nat := 1

/-- The filename component of a path: everything after the last `/` or
`\`, as `std::filesystem::path::filename` produces for ordinary paths. -/
def pathFilenameChars (cs : List Char) : List Char :=
  cs.foldl (fun acc c => if c = '/' ∨ c = '\\' then [] else acc ++ [c]) []

/-- Drop the final dot-extension from a filename, keeping a leading-dot
name intact, as `std::filesystem::path::stem` does. -/
def dropLastDotSuffix (cs : List Char) : List Char :=
  match (cs.reverse).findIdx? (fun c => c == '.') with
  | none => cs
  | some i =>
      let pos := cs.length - 1 - i
      if pos = 0 then cs else cs.take pos

/-- `std::filesystem::path(filename).stem().string()`. -/
def stemOf (s : String) : String :=
  String.mk (dropLastDotSuffix (pathFilenameChars s.toList))

/-- Lowercase hex rendering of a number, as `std::hex` prints it. -/
def toHex (n : Nat) : String := String.mk (Nat.toDigits 16 n)

/-- `ShaderCache::GetCacheFilePath(filename, hash)`:
`m_cacheDirectory << stem(filename) << "_" << hex(hash) << ".cache"`. -/
def getCacheFilePath (dir filename : String) (hash : Nat) : String :=
  dir ++ stemOf filename ++ "_" ++ toHex hash ++ ".cache"

/-- The bytes the read path produces: `bytecode.resize(header.size)` fills
with zeros, then `file.read` overwrites the first `min size available`
bytes from the payload. -/
def readPayload (size : Nat) (payload : List Nat) : List Nat :=
  payload.take size ++ List.replicate (size - payload.length) 0

/-- Result of `ShaderCache::GetCachedShader`: the returned flag, the
out-parameter bytecode (empty when the call returns false without writing
it), and the possibly updated cache state. -/
structure CacheLookupResult where
  hit : Bool
  bytecode : List Nat
  cache : ShaderCacheState
deriving DecidableEq

/-- The disk tier of `ShaderCache::GetCachedShader`: the record at the
derived path, whose header must carry the expected magic, the current
format version and the requested hash; a missing record or any header
mismatch returns `false` (filesystem faults are caught in the source and
reported the same way; the model's totality reflects that no exception
escapes).  A successful read repopulates the memory tier, timestamped with
the cache file's modification time (`mtimeOfPath`). -/
def getCachedShaderDisk (st : ShaderCacheState) (disk : Disk)
    (mtimeOfPath : String → Nat) (filename : String) (hash : Nat) :
    CacheLookupResult :=
  let cachePath := getCacheFilePath st.cacheDirectory filename hash
  match lookupA disk cachePath with
  | none => ⟨false, [], st⟩
  | some f =>
      if f.header.magic = xessMagic ∧ f.header.version = cacheVersion ∧
          f.header.hash = hash then
        let bc := readPayload f.header.size f.payload
        let entry : CacheEntry := ⟨bc, hash, mtimeOfPath cachePath⟩
        ⟨true, bc, { st with memoryCache := insertA st.memoryCache filename entry }⟩
      else ⟨false, [], st⟩

/-- `ShaderCache::GetCachedShader(filename, hash, bytecode)`: memory tier
first (filename present and `hash` equal), falling through to the disk
tier otherwise. -/
def getCachedShader (st : ShaderCacheState) (disk : Disk)
    (mtimeOfPath : String → Nat) (filename : String) (hash : Nat) :
    CacheLookupResult :=
  match lookupA st.memoryCache filename with
  | some e =>
      if e.hash = hash then ⟨true, e.bytecode, st⟩
      else getCachedShaderDisk st disk mtimeOfPath filename hash
  | none => getCachedShaderDisk st disk mtimeOfPath filename hash

/-- Whether the in-memory tier alone would satisfy the lookup. -/
def memoryHit (st : ShaderCacheState) (filename : String) (hash : Nat) : Bool :=
  match lookupA st.memoryCache filename with
  | some e => e.hash == hash
  | none => false

/-- A fresh in-memory tier over the same configuration and disk, as after
a process restart. -/
def restartMemory (st : ShaderCacheState) : ShaderCacheState :=
  { st with memoryCache := [] }

/-- `ShaderCache::CacheShader(filename, hash, bytecode)`: write a header
with the expected magic, the current version, the hash, and the byte count
truncated to `uint32` (`static_cast<uint32>(bytecode.size())`), followed by
the full payload; then refresh the memory tier with the current time
`now`. -/
def cacheShader (st : ShaderCacheState) (disk : Disk) (now : Nat)
    (filename : String) (hash : Nat) (bytecode : List Nat) :
    ShaderCacheState × Disk :=
  let cachePath := getCacheFilePath st.cacheDirectory filename hash
  let header : CacheHeader := ⟨xessMagic, cacheVersion, hash, bytecode.length % U32⟩
  let disk' := insertA disk cachePath ⟨header, bytecode⟩
  let entry : CacheEntry := ⟨bytecode, hash, now⟩
  ({ st with memoryCache := insertA st.memoryCache filename entry }, disk')

/-! ## ShaderCompiler -/

/-- The mutable compiler state: the DXC-vs-legacy flag set by
`Initialize`, the cache-enabled flag and the owned `ShaderCache`. -/
structure CompilerState where
  useLegacyCompiler : Bool := false
  cacheEnabled : Bool := true
  cache : ShaderCacheState := {}
deriving DecidableEq

/-- `ShaderCompiler::Initialize()` always returns true; it leaves
`m_useLegacyCompiler = false` exactly when the three DXC creation steps all
succeed (`dxcOk`), and sets it to true on the legacy fallback. -/
def useLegacyAfterInit (dxcOk : Bool) : Bool := !dxcOk

/-- Which backend `CompileFromSource` invokes. -/
inductive Backend where
  | Modern
  | Legacy
deriving DecidableEq

/-- The backend test in `CompileFromSource`:
`m_useLegacyCompiler || options.targetModel <= ShaderModel::SM_5_1`
(an `enum class` comparison of the underlying values). -/
def chooseBackend (useLegacy : Bool) (options : CompileOptions) : Backend :=
  if useLegacy || decide (options.targetModel.toNat ≤ ShaderModel.SM_5_1.toNat)
  then .Legacy else .Modern

/-- `ShaderCompiler::IsShaderModelSupported`. -/
def isShaderModelSupported (useLegacy : Bool) (m : ShaderModel) : Bool :=
  if useLegacy then decide (m.toNat ≤ ShaderModel.SM_5_1.toNat)
  else decide (m.toNat ≤ ShaderModel.SM_6_4.toNat)

/-- `ShaderCompiler::GetMaxSupportedShaderModel`. -/
def getMaxSupportedShaderModel (useLegacy : Bool) : ShaderModel :=
  if useLegacy then .SM_5_1 else .SM_6_4

/-- `ShaderCompiler::SupportsVariableRateShading`. -/
def supportsVariableRateShading (useLegacy : Bool) : Bool := !useLegacy

/-- `ShaderCompiler::SupportsMeshShaders`. -/
def supportsMeshShaders (useLegacy : Bool) : Bool := !useLegacy

/-- `ShaderCompiler::SupportsRaytracing`. -/
def supportsRaytracing (useLegacy : Bool) : Bool := !useLegacy

/-- `ShaderCompiler::SupportsWaveIntrinsics`. -/
def supportsWaveIntrinsics (useLegacy : Bool) : Bool := !useLegacy

/-- The observable outcome of the external `D3DCompile` call: whether the
returned `HRESULT` succeeded, the bytecode blob if one was produced, and
the error blob's text if one was produced. -/
structure D3DCompileOutcome where
  hrSucceeded : Bool
  bytecodeBlob : Option (List Nat)
  errorBlob : Option String
deriving DecidableEq

/-- The target profile string selected by
`ShaderCompiler::CompileWithLegacyCompiler`'s `switch (type)`: a hardcoded
`*_5_0` profile for the six classic stages, `none` for the `default:`
branch (which reports an unsupported type).  `options.targetModel` is not
consulted. -/
def legacyProfile : ShaderType → Option String
  | .Vertex => some "vs_5_0"
  | .Hull => some "hs_5_0"
  | .Domain => some "ds_5_0"
  | .Geometry => some "gs_5_0"
  | .Pixel => some "ps_5_0"
  | .Compute => some "cs_5_0"
  | _ => none

/-- `ShaderCompiler::CompileWithLegacyCompiler`.  Profile selection and
result assembly are from the source; the `D3DCompile` call itself is
external and its outcome is the function of the profile string passed to
it (`d3dCompile profile`).  On success with a bytecode blob the result is
marked successful; an error blob beomes an error on a failed `HRESULT` and
a warning otherwise; a failed `HRESULT` with no errors recorded yields
"Unknown compilation error". -/
def compileWithLegacyCompiler (r : CompileRequest)
    (d3dCompile : String → D3DCompileOutcome) : CompiledShader :=
  match legacyProfile r.shaderType with
  | none =>
      { emptyCompiledShader with
        errors := ["Unsupported shader type for legacy compiler"] }
  | some profile =>
      let outcome := d3dCompile profile
      let r1 :=
        if outcome.hrSucceeded then
          match outcome.bytecodeBlob with
          | some bc => { emptyCompiledShader with bytecode := bc, success := true }
          | none => emptyCompiledShader
        else emptyCompiledShader
      let r2 :=
        match outcome.errorBlob with
        | some txt =>
            if outcome.hrSucceeded then { r1 with warnings := r1.warnings ++ [txt] }
            else { r1 with errors := r1.errors ++ [txt] }
        | none => r1
      if !outcome.hrSucceeded ∧ r2.errors = [] then
        { r2 with errors := ["Unknown compilation error"] }
      else r2

/-- The observable outcome of the external DXC calls made by the modern
branch of `CompileFromSource`: the `CreateBlob` result, the outer
`Compile` result, the compilation status from `GetStatus`, the object blob
if `GetOutput(DXC_OUT_OBJECT)` produced one, and the error text if the
error blob was present with positive length. -/
structure DxcOutcome where
  createBlobOk : Bool
  compileOk : Bool
  compileStatusOk : Bool
  objectBlob : Option (List Nat)
  errorsText : Option String
deriving DecidableEq

/-- The modern (DXC) branch of `CompileFromSource`: assembles the
`CompiledShader` from the external outcomes exactly as the source does.
The surrounding try/catch turns exceptions into an error entry; the
model's totality reflects that nothing is thrown to the caller. -/
def compileWithDxc (outcome : DxcOutcome) : CompiledShader :=
  if !outcome.createBlobOk then
    { emptyCompiledShader with errors := ["Failed to create source blob"] }
  else if outcome.compileOk then
    let r1 :=
      if outcome.compileStatusOk then
        match outcome.objectBlob with
        | some bc => { emptyCompiledShader with bytecode := bc, success := true }
        | none => emptyCompiledShader
      else emptyCompiledShader
    match outcome.errorsText with
    | some txt =>
        if outcome.compileStatusOk then { r1 with warnings := r1.warnings ++ [txt] }
        else { r1 with errors := r1.errors ++ [txt] }
    | none => r1
  else
    { emptyCompiledShader with errors := ["DXC compilation failed"] }

/-- `ShaderCompiler::ExtractReflectionData(bytecode, shader)`: the current
implementation clears every reflection field ("For now, just clear the
reflection data"); the bytecode argument is not consulted. -/
def extractReflectionData (_bytecode : List Nat) (shader : CompiledShader) :
    CompiledShader :=
  { shader with
    inputLayout := []
    constantBufferBindings := []
    textureBindings := []
    samplerBindings := []
    uavBindings := [] }

/-- The external world a compile interacts with: cache-file modification
times, the current clock, and the two external compiler backends. -/
structure CompileEnv where
  mtimeOfPath : String → Nat
  now : Nat
  d3dCompile : String → D3DCompileOutcome
  dxcOutcome : DxcOutcome

/-- The backend invocation inside `CompileFromSource`: legacy when
`m_useLegacyCompiler || options.targetModel <= SM_5_1`, DXC otherwise. -/
def backendCompile (st : CompilerState) (env : CompileEnv)
    (r : CompileRequest) : CompiledShader :=
  if st.useLegacyCompiler || decide (r.options.targetModel.toNat ≤ ShaderModel.SM_5_1.toNat)
  then compileWithLegacyCompiler r env.d3dCompile
  else compileWithDxc env.dxcOutcome

/-- The part of `ShaderCompiler::CompileFromSource` that runs after a
cache miss (or with caching off): invoke the backend; only a successful
result gets reflection extraction and — re-checking `m_cacheEnabled &&
!sourceName.empty()` as the source does — is written to the cache. -/
def compileFromSourceMiss (hasher : String → Nat) (env : CompileEnv)
    (st1 : CompilerState) (disk : Disk) (r : CompileRequest) :
    CompiledShader × CompilerState × Disk :=
  let result := backendCompile st1 env r
  if result.success then
    let result2 := extractReflectionData result.bytecode result
    if st1.cacheEnabled && !(r.sourceName == "") then
      let hash := calculateSourceHash hasher r.source r.options
      let (c2, disk2) :=
        cacheShader st1.cache disk env.now r.sourceName hash result2.bytecode
      (result2, { st1 with cache := c2 }, disk2)
    else (result2, st1, disk)
  else (result, st1, disk)

/-- `ShaderCompiler::CompileFromSource`.  When caching is enabled and a
source name was given, the fingerprint is computed and the cache is tried;
a hit returns the cached bytecode as a successful result with reflection
extraction applied.  Otherwise compilation proceeds on the miss path.
The `ShaderCache` member is threaded through explicitly, so the (possibly
repopulated) cache state after the lookup is what the miss path sees. -/
def compileFromSource (hasher : String → Nat) (env : CompileEnv)
    (st : CompilerState) (disk : Disk) (r : CompileRequest) :
    CompiledShader × CompilerState × Disk :=
  if st.cacheEnabled && !(r.sourceName == "") then
    let hash := calculateSourceHash hasher r.source r.options
    let g := getCachedShader st.cache disk env.mtimeOfPath r.sourceName hash
    if g.hit then
      let res0 := { emptyCompiledShader with bytecode := g.bytecode, success := true }
      (extractReflectionData res0.bytecode res0, { st with cache := g.cache }, disk)
    else compileFromSourceMiss hasher env { st with cache := g.cache } disk r
  else compileFromSourceMiss hasher env st disk r

/-- `ShaderCompiler::CompileFromFile`.  `fileRead` is the string returned
by `LoadShaderSource` (empty on an unreadable file, in which case the call
returns an error result without compiling). -/
def compileFromFile (hasher : String → Nat) (env : CompileEnv)
    (st : CompilerState) (disk : Disk) (fileRead : String)
    (filename entry : String) (t : ShaderType) (options : CompileOptions) :
    CompiledShader × CompilerState × Disk :=
  if fileRead = "" then
    ({ emptyCompiledShader with
       errors := ["Failed to load shader file: " ++ filename] }, st, disk)
  else
    compileFromSource hasher env st disk
      ⟨fileRead, entry, t, options, filename⟩

/-! ## Shader hot reload (`Shader::LoadFromFile`, `Shader::CheckForReload`) -/

/-- The fields of `Shader` that `LoadFromFile` and `CheckForReload`
read or write: the remembered request parameters, the loaded source text,
whether `m_shader && m_shader->IsValid()`, the last-seen file time and the
hot-reload flag. -/
structure ShaderState where
  sourceFile : String := ""
  entryPoint : String := ""
  shaderType : ShaderType := .Vertex
  compileOptions : CompileOptions := {}
  sourceCode : String := ""
  shaderValid : Bool := false
  lastFileTime : Nat := 0
  hotReloadEnabled : Bool := false
deriving DecidableEq

/-- The external world seen by `Shader`: file contents by name (`none`
when the ifstream cannot be opened), `GetFileTime` results (0 for a
missing file, handled by the environment), and whether the manager's
`CompileShader` yields a valid shader for the reloaded source. -/
structure ShaderEnv where
  fileContents : String → Option String
  fileTime : String → Nat
  compileValid : Bool

/-- `Shader::LoadFromFile(filename, entryPoint, type, options)`.  The
request parameters are recorded first; an unopenable file returns false;
otherwise the source is read and compiled, and only when the compiled
shader is valid is `m_lastFileTime` refreshed from `GetFileTime` and true
returned.  On a failed compile (or an exception, caught in the source)
the last file time is left unchanged and false is returned. -/
def loadFromFile (env : ShaderEnv) (s : ShaderState) (filename entry : String)
    (t : ShaderType) (options : CompileOptions) : ShaderState × Bool :=
  let s1 := { s with
    sourceFile := filename, entryPoint := entry,
    shaderType := t, compileOptions := options }
  match env.fileContents filename with
  | none => (s1, false)
  | some text =>
      let s2 := { s1 with sourceCode := text, shaderValid := env.compileValid }
      if env.compileValid then
        ({ s2 with lastFileTime := env.fileTime filename }, true)
      else (s2, false)

/-- `Shader::CheckForReload()`.  A no-op unless hot reload is enabled and
a source file is recorded; otherwise the current file time is compared,
and strictly newer triggers `LoadFromFile` with the remembered request
parameters.  The boolean reports whether a reload was triggered. -/
def checkForReload (env : ShaderEnv) (s : ShaderState) : ShaderState × Bool :=
  if !s.hotReloadEnabled || s.sourceFile == "" then (s, false)
  else
    let currentFileTime := env.fileTime s.sourceFile
    if s.lastFileTime < currentFileTime then
      ((loadFromFile env s s.sourceFile s.entryPoint s.shaderType s.compileOptions).1,
       true)
    else (s, false)

/-! ## Concrete instances used by witnesses and counterexamples -/

/-- An empty cache state (defaults from the header). -/
def stC1 : ShaderCacheState := {}

/-- A well-formed disk record: expected magic, current version, hash 5,
three payload bytes. -/
def fileC1 : DiskFile := ⟨⟨xessMagic, cacheVersion, 5, 3⟩, [10, 20, 30]⟩

/-- A disk holding exactly `fileC1` at the derived cache path. -/
def diskC1 : Disk :=
  insertA [] (getCacheFilePath "cache/shaders/" "foo.hlsl" 5) fileC1

/-- A vertex-stage compile request. -/
def reqA : CompileRequest :=
  ⟨"float4 main", "VSMain", .Vertex, {}, "a.hlsl"⟩

/-- The same source and options as `reqA`, but a different entry point and
shader stage. -/
def reqB : CompileRequest :=
  ⟨"float4 main", "PSMain", .Pixel, {}, "a.hlsl"⟩

/-- The same request as `reqA` except that `warningsAsErrors` is set. -/
def reqC : CompileRequest :=
  ⟨"float4 main", "VSMain", .Vertex, { warningsAsErrors := true }, "a.hlsl"⟩

/-- Options with optimization level 2, otherwise defaults and no macros. -/
def optLvl2 : CompileOptions := { optimizationLevel := 2 }

/-- Options with optimization level 3, otherwise defaults and no macros. -/
def optLvl3 : CompileOptions := { optimizationLevel := 3 }

/-- An environment whose external compilers both fail and report nothing. -/
def envFail : CompileEnv :=
  ⟨fun _ => 0, 0, fun _ => ⟨false, none, none⟩, ⟨true, true, false, none, none⟩⟩

/-- A compiler on the legacy backend with caching disabled. -/
def cstNoCache : CompilerState :=
  { useLegacyCompiler := true, cacheEnabled := false, cache := {} }

/-- A request routed to the legacy backend. -/
def reqFail : CompileRequest := ⟨"bad source", "main", .Vertex, {}, "b.hlsl"⟩

/-- A `D3DCompile` that fails with a null error blob. -/
def d3dFail : String → D3DCompileOutcome := fun _ => ⟨false, none, none⟩

/-- DXC outcomes for a compile whose status failed but produced an error
message. -/
def dxcFailWithText : DxcOutcome := ⟨true, true, false, none, some "compile error"⟩

/-- An environment whose legacy compiler succeeds with bytecode
`[1, 2, 3]`. -/
def envOk : CompileEnv :=
  ⟨fun _ => 0, 0, fun _ => ⟨true, some [1, 2, 3], none⟩,
   ⟨true, true, true, some [1, 2, 3], none⟩⟩

/-- A shader value that already carries a constant-buffer binding, used to
observe that reflection extraction discards rather than populates. -/
def shaderWithBindings : CompiledShader :=
  { emptyCompiledShader with constantBufferBindings := [("Globals", 0)] }

/-- A watched shader: hot reload on, a recorded source file, last-seen
time 1. -/
def s9 : ShaderState :=
  { sourceFile := "a.hlsl", entryPoint := "main", hotReloadEnabled := true,
    lastFileTime := 1 }

/-- A world where the watched file now has time 5 but recompiling it
fails. -/
def env9fail : ShaderEnv := ⟨fun _ => some "float4 main", fun _ => 5, false⟩

/-- A world where the watched file now has time 5 and recompiling
succeeds. -/
def env9ok : ShaderEnv := ⟨fun _ => some "float4 main", fun _ => 5, true⟩

/-! ## Helper lemmas -/

theorem lookupA_insertA_self {α : Type} (l : List (String × α)) (k : String) (v : α) :
    lookupA (insertA l k v) k = some v := by
  simp [insertA, lookupA]

theorem bool_eq_false_of_not_true {b : Bool} (h : ¬b = true) : b = false := by
  cases b
  · rfl
  · exact absurd rfl h

theorem getCachedShaderDisk_spec (st : ShaderCacheState) (disk : Disk)
    (mt : String → Nat) (filename : String) (hash : Nat) :
    ((getCachedShaderDisk st disk mt filename hash).hit = true ↔
      ∃ f, lookupA disk (getCacheFilePath st.cacheDirectory filename hash) = some f ∧
        f.header.magic = xessMagic ∧ f.header.version = cacheVersion ∧
        f.header.hash = hash)
    ∧ ((getCachedShaderDisk st disk mt filename hash).hit = false →
        (getCachedShaderDisk st disk mt filename hash).cache = st)
    ∧ ((getCachedShaderDisk st disk mt filename hash).hit = true →
        ∃ e, lookupA (getCachedShaderDisk st disk mt filename hash).cache.memoryCache
            filename = some e ∧
          e.hash = hash ∧
          e.bytecode = (getCachedShaderDisk st disk mt filename hash).bytecode) := by
  unfold getCachedShaderDisk
  cases hl : lookupA disk (getCacheFilePath st.cacheDirectory filename hash) with
  | none => simp [hl]
  | some f =>
      by_cases hc : f.header.magic = xessMagic ∧ f.header.version = cacheVersion ∧
          f.header.hash = hash
      · simp only [hl, if_pos hc]
        refine ⟨by simp [hc], by simp, ?_⟩
        intro _
        exact ⟨_, lookupA_insertA_self _ _ _, rfl, rfl⟩
      · simp only [hl, if_neg hc]
        refine ⟨?_, ?_, ?_⟩
        · constructor
          · intro h; exact absurd h (by simp)
          · rintro ⟨f', hf', hm, hv, hh⟩
            cases hf'
            exact absurd ⟨hm, hv, hh⟩ hc
        · simp
        · simp

theorem getCachedShader_not_hit_cache (st : ShaderCacheState) (disk : Disk)
    (mt : String → Nat) (filename : String) (hash : Nat)
    (h : (getCachedShader st disk mt filename hash).hit = false) :
    (getCachedShader st disk mt filename hash).cache = st := by
  unfold getCachedShader at h ⊢
  cases hm : lookupA st.memoryCache filename with
  | none =>
      rw [hm] at h
      exact (getCachedShaderDisk_spec st disk mt filename hash).2.1 h
  | some e =>
      rw [hm] at h
      dsimp only at h ⊢
      by_cases he : e.hash = hash
      · rw [if_pos he] at h; cases h
      · rw [if_neg he] at h ⊢
        exact (getCachedShaderDisk_spec st disk mt filename hash).2.1 h

theorem getCachedShader_memNone (st : ShaderCacheState) (disk : Disk)
    (mt : String → Nat) (filename : String) (hash : Nat)
    (h : lookupA st.memoryCache filename = none) :
    getCachedShader st disk mt filename hash =
      getCachedShaderDisk st disk mt filename hash := by
  unfold getCachedShader
  rw [h]

theorem getCachedShaderDisk_found (st : ShaderCacheState) (disk : Disk)
    (mt : String → Nat) (filename : String) (hash : Nat) (f : DiskFile)
    (hf : lookupA disk (getCacheFilePath st.cacheDirectory filename hash) = some f)
    (hm : f.header.magic = xessMagic) (hv : f.header.version = cacheVersion)
    (hh : f.header.hash = hash) :
    getCachedShaderDisk st disk mt filename hash =
      ⟨true, readPayload f.header.size f.payload,
       ⟨st.cacheDirectory,
        insertA st.memoryCache filename
          ⟨readPayload f.header.size f.payload, hash,
           mt (getCacheFilePath st.cacheDirectory filename hash)⟩⟩⟩ := by
  unfold getCachedShaderDisk
  simp only [hf, if_pos (And.intro hm (And.intro hv hh))]

/-- Writing an entry and looking it up after a memory-tier restart hits
the disk tier and returns the payload truncated to the stored 32-bit
size field. -/
theorem cacheRoundTrip (st : ShaderCacheState) (disk : Disk) (now : Nat)
    (mt : String → Nat) (filename : String) (hash : Nat) (bytecode : List Nat) :
    ((getCachedShader
        (restartMemory (cacheShader st disk now filename hash bytecode).1)
        (cacheShader st disk now filename hash bytecode).2
        mt filename hash).hit = true)
    ∧ ((getCachedShader
        (restartMemory (cacheShader st disk now filename hash bytecode).1)
        (cacheShader st disk now filename hash bytecode).2
        mt filename hash).bytecode = readPayload (bytecode.length % U32) bytecode) := by
  have h1 := getCachedShader_memNone
      (restartMemory (cacheShader st disk now filename hash bytecode).1)
      (cacheShader st disk now filename hash bytecode).2 mt filename hash rfl
  have h2 := getCachedShaderDisk_found
      (restartMemory (cacheShader st disk now filename hash bytecode).1)
      (cacheShader st disk now filename hash bytecode).2 mt filename hash
      (⟨⟨xessMagic, cacheVersion, hash, bytecode.length % U32⟩, bytecode⟩ : DiskFile)
      (lookupA_insertA_self disk (getCacheFilePath st.cacheDirectory filename hash) _)
      rfl rfl rfl
  rw [h1, h2]
  exact ⟨rfl, rfl⟩

theorem mixStep_right_ne (h : Nat) {a b : Nat} (ha : a < U32) (hb : b < U32)
    (hab : a ≠ b) : mixStep h a ≠ mixStep h b := by
  unfold mixStep
  intro heq
  have hx := Nat.xor_right_inj.mp heq
  have hmod : a % U64 = b % U64 := by
    have h1 : a + (0x9e3779b9 + (h * 64) % U64 + h / 4) ≡
        b + (0x9e3779b9 + (h * 64) % U64 + h / 4) [MOD U64] := by
      unfold Nat.ModEq
      calc (a + (0x9e3779b9 + (h * 64) % U64 + h / 4)) % U64
        = (a + 0x9e3779b9 + (h * 64) % U64 + h / 4) % U64 := by ring_nf
        _ = (b + 0x9e3779b9 + (h * 64) % U64 + h / 4) % U64 := hx
        _ = (b + (0x9e3779b9 + (h * 64) % U64 + h / 4)) % U64 := by ring_nf
    exact Nat.ModEq.add_right_cancel rfl h1
  have ha64 : a < U64 := lt_trans ha (by norm_num [U32, U64])
  have hb64 : b < U64 := lt_trans hb (by norm_num [U32, U64])
  rw [Nat.mod_eq_of_lt ha64, Nat.mod_eq_of_lt hb64] at hmod
  exact hab hmod

theorem extractReflectionData_success (b : List Nat) (s : CompiledShader) :
    (extractReflectionData b s).success = s.success := rfl

theorem backendCompile_cache_irrel (st : CompilerState) (c : ShaderCacheState)
    (env : CompileEnv) (r : CompileRequest) :
    backendCompile { st with cache := c } env r = backendCompile st env r := rfl

theorem compileFromSourceMiss_fail (hasher : String → Nat) (env : CompileEnv)
    (st1 : CompilerState) (disk : Disk) (r : CompileRequest)
    (h : (backendCompile st1 env r).success = false) :
    compileFromSourceMiss hasher env st1 disk r =
      (backendCompile st1 env r, st1, disk) := by
  unfold compileFromSourceMiss
  simp only [h, Bool.false_eq_true, if_false]

theorem compileFromSourceMiss_ok (hasher : String → Nat) (env : CompileEnv)
    (st1 : CompilerState) (disk : Disk) (r : CompileRequest)
    (h : (backendCompile st1 env r).success = true) :
    (compileFromSourceMiss hasher env st1 disk r).1 =
      extractReflectionData (backendCompile st1 env r).bytecode
        (backendCompile st1 env r) := by
  unfold compileFromSourceMiss
  simp only [h, if_true]
  by_cases hdc : (st1.cacheEnabled && !(r.sourceName == "")) = true
  · simp only [hdc, if_true]
  · simp only [bool_eq_false_of_not_true hdc, Bool.false_eq_true, if_false]

/-! ## Claim theorems -/

/-- Claim C1: after a miss in the in-memory tier, `GetCachedShader`
reports a disk record as a hit if and only if its magic equals "XESS",
its version equals the current format version, and its stored fingerprint
equals the requested hash; any mismatch returns false (the total model
returns rather than raising), leaving the cache untouched, and a
successful disk read inserts the entry into the in-memory tier. -/
theorem C1_cache_lookup (st : ShaderCacheState) (disk : Disk)
    (mt : String → Nat) (filename : String) (hash : Nat)
    (hmem : memoryHit st filename hash = false) :
    ((getCachedShader st disk mt filename hash).hit = true ↔
      ∃ f, lookupA disk (getCacheFilePath st.cacheDirectory filename hash) = some f ∧
        f.header.magic = xessMagic ∧ f.header.version = cacheVersion ∧
        f.header.hash = hash)
    ∧ ((getCachedShader st disk mt filename hash).hit = false →
        (getCachedShader st disk mt filename hash).cache = st)
    ∧ ((getCachedShader st disk mt filename hash).hit = true →
        ∃ e, lookupA (getCachedShader st disk mt filename hash).cache.memoryCache
            filename = some e ∧
          e.hash = hash ∧
          e.bytecode = (getCachedShader st disk mt filename hash).bytecode) := by
  unfold memoryHit at hmem
  unfold getCachedShader
  cases hm : lookupA st.memoryCache filename with
  | none => exact getCachedShaderDisk_spec st disk mt filename hash
  | some e =>
      rw [hm] at hmem
      have he : e.hash ≠ hash := by
        intro hcontra
        simp [hcontra] at hmem
      dsimp only
      rw [if_neg he]
      exact getCachedShaderDisk_spec st disk mt filename hash

theorem C1_witness :
    memoryHit stC1 "foo.hlsl" 5 = false ∧
      (getCachedShader stC1 diskC1 (fun _ => 7) "foo.hlsl" 5).hit = true :=
  ⟨by decide,
   ((C1_cache_lookup stC1 diskC1 (fun _ => 7) "foo.hlsl" 5 (by decide)).1).mpr
     ⟨fileC1, by decide, rfl, rfl, rfl⟩⟩

/-- Claim C2, counterexample: two compile requests over the same source and
options but different entry points and shader stages (here also shown for a
`warningsAsErrors` flag change) receive the same fingerprint —
`CalculateSourceHash` takes only the source text and options, and consults
neither the entry point, the shader type, nor that flag — refuting the
claim that any such single-field change changes the fingerprint. -/
theorem C2_counterexample :
    reqA.entryPoint ≠ reqB.entryPoint ∧
    reqA.shaderType ≠ reqB.shaderType ∧
    requestFingerprint String.length reqA = requestFingerprint String.length reqB ∧
    reqA.options.warningsAsErrors ≠ reqC.options.warningsAsErrors ∧
    requestFingerprint String.length reqA = requestFingerprint String.length reqC :=
  ⟨by decide, by decide, rfl, by decide, rfl⟩

/-- Claim C2, amended: the fingerprint is a function of exactly the source
text, target model, debug-info flag, optimization-enable flag,
optimization level and macro list — two requests agreeing on those get
equal fingerprints regardless of entry point, shader type, the remaining
flags, or include paths; and among the hashed fields, a macro-free pair
differing only in (in-range) optimization level always gets different
fingerprints. -/
theorem C2_amended :
    (∀ (hasher : String → Nat) (r1 r2 : CompileRequest),
      r1.source = r2.source →
      r1.options.targetModel = r2.options.targetModel →
      r1.options.enableDebugInfo = r2.options.enableDebugInfo →
      r1.options.enableOptimization = r2.options.enableOptimization →
      r1.options.optimizationLevel = r2.options.optimizationLevel →
      r1.options.macros = r2.options.macros →
      requestFingerprint hasher r1 = requestFingerprint hasher r2)
    ∧ (∀ (hasher : String → Nat) (source : String) (o1 o2 : CompileOptions),
      o1.targetModel = o2.targetModel →
      o1.enableDebugInfo = o2.enableDebugInfo →
      o1.enableOptimization = o2.enableOptimization →
      o1.macros = [] → o2.macros = [] →
      o1.optimizationLevel < U32 → o2.optimizationLevel < U32 →
      o1.optimizationLevel ≠ o2.optimizationLevel →
      calculateSourceHash hasher source o1 ≠ calculateSourceHash hasher source o2) := by
  constructor
  · intro hasher r1 r2 hs hm hd ho hl hmac
    unfold requestFingerprint calculateSourceHash
    rw [hs, hm, hd, ho, hl, hmac]
  · intro hasher source o1 o2 hm hd ho hm1 hm2 hl1 hl2 hne
    unfold calculateSourceHash
    rw [hm, hd, ho, hm1, hm2]
    simp only [List.foldl_nil]
    exact mixStep_right_ne _ hl1 hl2 hne

theorem C2_witness :
    (reqA.source = reqB.source ∧
      requestFingerprint String.length reqA = requestFingerprint String.length reqB) ∧
    (optLvl2.optimizationLevel ≠ optLvl3.optimizationLevel ∧
      calculateSourceHash String.length "float4 main" optLvl2 ≠
        calculateSourceHash String.length "float4 main" optLvl3) :=
  ⟨⟨rfl, C2_amended.1 String.length reqA reqB rfl rfl rfl rfl rfl rfl⟩,
   ⟨by decide,
    C2_amended.2 String.length "float4 main" optLvl2 optLvl3 rfl rfl rfl rfl rfl
      (by decide) (by decide) (by decide)⟩⟩

/-- Claim C3, counterexample: the header's size field is a `uint32`
(`static_cast<uint32>(bytecode.size())`), so storing a bytecode of 2^32
bytes records size 0 and the lookup after a memory-tier restart reports a
hit whose bytecode is not byte-for-byte equal to what was stored —
refuting the claim for unbounded bytecode sizes. -/
theorem C3_counterexample :
    ((getCachedShader
        (restartMemory (cacheShader stC1 [] 0 "big.hlsl" 7 (List.replicate U32 0)).1)
        (cacheShader stC1 [] 0 "big.hlsl" 7 (List.replicate U32 0)).2
        (fun _ => 0) "big.hlsl" 7).hit = true)
    ∧ ((getCachedShader
        (restartMemory (cacheShader stC1 [] 0 "big.hlsl" 7 (List.replicate U32 0)).1)
        (cacheShader stC1 [] 0 "big.hlsl" 7 (List.replicate U32 0)).2
        (fun _ => 0) "big.hlsl" 7).bytecode ≠ List.replicate U32 0) := by
  refine ⟨(cacheRoundTrip stC1 [] 0 (fun _ => 0) "big.hlsl" 7 (List.replicate U32 0)).1, ?_⟩
  rw [(cacheRoundTrip stC1 [] 0 (fun _ => 0) "big.hlsl" 7 (List.replicate U32 0)).2,
    List.length_replicate, Nat.mod_self]
  unfold readPayload
  simp only [List.take_zero, Nat.zero_sub, List.replicate_zero, List.nil_append]
  intro h
  have hl2 := congrArg List.length h
  rw [List.length_nil, List.length_replicate] at hl2
  exact absurd hl2.symm (by norm_num [U32])

/-- Claim C3, amended: for bytecode smaller than 2^32 bytes, storing with
`CacheShader`, clearing the in-memory tier (process restart), and looking
the same name and fingerprint up again returns true with byte-for-byte
identical bytecode. -/
theorem C3_amended (st : ShaderCacheState) (disk : Disk) (now : Nat)
    (mt : String → Nat) (filename : String) (hash : Nat) (bytecode : List Nat)
    (hlen : bytecode.length < U32) :
    ((getCachedShader
        (restartMemory (cacheShader st disk now filename hash bytecode).1)
        (cacheShader st disk now filename hash bytecode).2
        mt filename hash).hit = true)
    ∧ ((getCachedShader
        (restartMemory (cacheShader st disk now filename hash bytecode).1)
        (cacheShader st disk now filename hash bytecode).2
        mt filename hash).bytecode = bytecode) := by
  refine ⟨(cacheRoundTrip st disk now mt filename hash bytecode).1, ?_⟩
  rw [(cacheRoundTrip st disk now mt filename hash bytecode).2,
    Nat.mod_eq_of_lt hlen]
  unfold readPayload
  simp

theorem C3_witness :
    ([1, 2, 3] : List Nat).length < U32 ∧
      (((getCachedShader
          (restartMemory (cacheShader stC1 [] 0 "w.hlsl" 9 [1, 2, 3]).1)
          (cacheShader stC1 [] 0 "w.hlsl" 9 [1, 2, 3]).2
          (fun _ => 0) "w.hlsl" 9).hit = true)
        ∧ ((getCachedShader
            (restartMemory (cacheShader stC1 [] 0 "w.hlsl" 9 [1, 2, 3]).1)
            (cacheShader stC1 [] 0 "w.hlsl" 9 [1, 2, 3]).2
            (fun _ => 0) "w.hlsl" 9).bytecode = [1, 2, 3])) :=
  ⟨by decide, C3_amended stC1 [] 0 (fun _ => 0) "w.hlsl" 9 [1, 2, 3] (by decide)⟩

/-- Claim C4: the tier encoding is major*16+minor, and the modern (DXC)
backend is chosen if and only if DXC initialized successfully and the
requested tier's encoded value is at least 6.0's; in every other case the
legacy backend is chosen. -/
theorem C4_backend_selection (dxcOk : Bool) (o : CompileOptions) :
    ShaderModel.SM_6_0.toNat = 6 * 16 + 0
    ∧ ShaderModel.SM_5_1.toNat = 5 * 16 + 1
    ∧ (chooseBackend (useLegacyAfterInit dxcOk) o = Backend.Modern ↔
      (dxcOk = true ∧ ShaderModel.SM_6_0.toNat ≤ o.targetModel.toNat))
    ∧ (chooseBackend (useLegacyAfterInit dxcOk) o = Backend.Legacy ↔
      ¬(dxcOk = true ∧ ShaderModel.SM_6_0.toNat ≤ o.targetModel.toNat)) := by
  refine ⟨rfl, rfl, ?_⟩
  cases dxcOk <;> cases h : o.targetModel <;>
    simp [chooseBackend, useLegacyAfterInit, h, ShaderModel.toNat]

/-- Claim C5: a compile request whose result has `success = false` leaves
both the in-memory/on-disk cache tiers unchanged (the cache is written
only under `if (result.success)`), so the same key will attempt
compilation again. -/
theorem C5_no_cache_on_failure (hasher : String → Nat) (env : CompileEnv)
    (st : CompilerState) (disk : Disk) (r : CompileRequest)
    (h : (compileFromSource hasher env st disk r).1.success = false) :
    (compileFromSource hasher env st disk r).2.1 = st ∧
      (compileFromSource hasher env st disk r).2.2 = disk := by
  unfold compileFromSource at h ⊢
  by_cases hdc : (st.cacheEnabled && !(r.sourceName == "")) = true
  · simp only [hdc, if_true] at h ⊢
    by_cases hhit : (getCachedShader st.cache disk env.mtimeOfPath r.sourceName
        (calculateSourceHash hasher r.source r.options)).hit = true
    · simp only [hhit, if_true] at h
      cases h
    · have hf := bool_eq_false_of_not_true hhit
      simp only [hf, Bool.false_eq_true, if_false] at h ⊢
      have hcache := getCachedShader_not_hit_cache st.cache disk env.mtimeOfPath
        r.sourceName (calculateSourceHash hasher r.source r.options) hf
      by_cases hres : (backendCompile { st with cache :=
          (getCachedShader st.cache disk env.mtimeOfPath r.sourceName
            (calculateSourceHash hasher r.source r.options)).cache } env r).success = true
      · rw [compileFromSourceMiss] at h
        simp only [hres, hdc, if_true] at h
        rw [extractReflectionData_success] at h
        rw [hres] at h
        cases h
      · have hres2 := bool_eq_false_of_not_true hres
        rw [compileFromSourceMiss_fail hasher env _ disk r hres2]
        refine ⟨?_, rfl⟩
        rw [hcache]
  · have hdc2 := bool_eq_false_of_not_true hdc
    simp only [hdc2, Bool.false_eq_true, if_false] at h ⊢
    by_cases hres : (backendCompile st env r).success = true
    · rw [compileFromSourceMiss] at h
      simp only [hres, hdc2, Bool.false_eq_true, if_true, if_false] at h
      rw [extractReflectionData_success] at h
      rw [hres] at h
      cases h
    · have hres2 := bool_eq_false_of_not_true hres
      rw [compileFromSourceMiss_fail hasher env st disk r hres2]
      exact ⟨rfl, rfl⟩

theorem C5_witness :
    (compileFromSource String.length envFail cstNoCache [] reqFail).1.success = false ∧
      ((compileFromSource String.length envFail cstNoCache [] reqFail).2.1 = cstNoCache ∧
        (compileFromSource String.length envFail cstNoCache [] reqFail).2.2 = []) :=
  ⟨by decide,
   C5_no_cache_on_failure String.length envFail cstNoCache [] reqFail (by decide)⟩

/-- Claim C6: an unreadable source file yields a `CompiledShader` with
`success = false` and a non-empty error list; so does any failing legacy
compile (given D3DCompile's contract that a succeeding call returns a
bytecode blob) and any failing DXC compile (given that a failed status
comes with error text and a succeeded status with an object blob).
Totality of the model reflects that no exception propagates. -/
theorem C6_error_reporting :
    (∀ (hasher : String → Nat) (env : CompileEnv) (st : CompilerState) (disk : Disk)
        (filename entry : String) (t : ShaderType) (o : CompileOptions),
      (compileFromFile hasher env st disk "" filename entry t o).1.success = false ∧
      (compileFromFile hasher env st disk "" filename entry t o).1.errors ≠ [])
    ∧ (∀ (r : CompileRequest) (d3d : String → D3DCompileOutcome),
      (∀ p, (d3d p).hrSucceeded = true → (d3d p).bytecodeBlob ≠ none) →
      (compileWithLegacyCompiler r d3d).success = false →
      (compileWithLegacyCompiler r d3d).errors ≠ [])
    ∧ (∀ oc : DxcOutcome,
      (oc.compileStatusOk = false → oc.errorsText ≠ none) →
      (oc.compileStatusOk = true → oc.objectBlob ≠ none) →
      (compileWithDxc oc).success = false →
      (compileWithDxc oc).errors ≠ []) := by
  refine ⟨?_, ?_, ?_⟩
  · intro hasher env st disk filename entry t o
    unfold compileFromFile
    simp [emptyCompiledShader]
  · intro r d3d hblob hfail
    unfold compileWithLegacyCompiler at hfail ⊢
    cases hp : legacyProfile r.shaderType with
    | none => simp [hp, emptyCompiledShader]
    | some prof =>
        simp only [hp] at hfail ⊢
        cases ho : (d3d prof).hrSucceeded with
        | true =>
            cases hb : (d3d prof).bytecodeBlob with
            | none => exact absurd (hblob prof ho) (by simp [hb])
            | some bc =>
                simp only [ho, hb, if_true] at hfail
                cases he : (d3d prof).errorBlob with
                | none => simp [he] at hfail
                | some txt => simp [he] at hfail
        | false =>
            cases he : (d3d prof).errorBlob with
            | none => simp [ho, he, emptyCompiledShader]
            | some txt => simp [ho, he, emptyCompiledShader]
  · intro oc herr hobj hfail
    unfold compileWithDxc at hfail ⊢
    cases hcb : oc.createBlobOk with
    | false => simp [hcb, emptyCompiledShader]
    | true =>
        cases hco : oc.compileOk with
        | false => simp [hcb, hco, emptyCompiledShader]
        | true =>
            simp only [hcb, hco, Bool.not_true, if_true, Bool.false_eq_true,
              if_false] at hfail ⊢
            cases hcs : oc.compileStatusOk with
            | true =>
                cases hb : oc.objectBlob with
                | none => exact absurd (hobj hcs) (by simp [hb])
                | some bc =>
                    simp only [hcs, hb, if_true] at hfail
                    cases he : oc.errorsText with
                    | none => simp [he] at hfail
                    | some txt => simp [he] at hfail
            | false =>
                cases he : oc.errorsText with
                | none => exact absurd (herr hcs) (by simp [he])
                | some txt => simp [hcs, he, emptyCompiledShader]

theorem C6_witness :
    ((compileFromFile String.length envFail cstNoCache [] "" "f.hlsl" "main"
        ShaderType.Vertex {}).1.errors ≠ [])
    ∧ ((compileWithLegacyCompiler reqFail d3dFail).errors ≠ [])
    ∧ ((compileWithDxc dxcFailWithText).errors ≠ []) :=
  ⟨(C6_error_reporting.1 String.length envFail cstNoCache [] "f.hlsl" "main"
      ShaderType.Vertex {}).2,
   C6_error_reporting.2.1 reqFail d3dFail (fun _ h => Bool.noConfusion h) (by decide),
   C6_error_reporting.2.2 dxcFailWithText (fun _ => by decide)
     (fun h => Bool.noConfusion h) (by decide)⟩

/-- Claim C7, counterexample: a successful compile with non-empty bytecode
produces empty reflection maps — `ExtractReflectionData` clears every
reflection field, ignores its bytecode argument, and even discards
bindings already present — refuting the claim that the maps are populated
from the produced bytecode. -/
theorem C7_counterexample :
    (compileFromSource String.length envOk cstNoCache [] reqFail).1.success = true
    ∧ (compileFromSource String.length envOk cstNoCache [] reqFail).1.bytecode = [1, 2, 3]
    ∧ (compileFromSource String.length envOk cstNoCache [] reqFail).1.constantBufferBindings = []
    ∧ shaderWithBindings.constantBufferBindings ≠ []
    ∧ extractReflectionData [1, 2, 3] shaderWithBindings =
        extractReflectionData [] shaderWithBindings
    ∧ (extractReflectionData [1, 2, 3] shaderWithBindings).constantBufferBindings = [] := by
  refine ⟨by decide, by decide, by decide, by decide, rfl, rfl⟩

/-- Claim C7, amended: reflection extraction runs exactly when
`success = true` — every successful result (cache hits included) has had
all five reflection fields reset to empty by the extraction stub — and a
failed result is returned exactly as the backend produced it, with no
extraction applied. -/
theorem C7_amended (hasher : String → Nat) (env : CompileEnv) (st : CompilerState)
    (disk : Disk) (r : CompileRequest) :
    ((compileFromSource hasher env st disk r).1.success = true →
      (compileFromSource hasher env st disk r).1.inputLayout = [] ∧
      (compileFromSource hasher env st disk r).1.constantBufferBindings = [] ∧
      (compileFromSource hasher env st disk r).1.textureBindings = [] ∧
      (compileFromSource hasher env st disk r).1.samplerBindings = [] ∧
      (compileFromSource hasher env st disk r).1.uavBindings = [])
    ∧ ((compileFromSource hasher env st disk r).1.success = false →
      (compileFromSource hasher env st disk r).1 = backendCompile st env r) := by
  unfold compileFromSource
  by_cases hdc : (st.cacheEnabled && !(r.sourceName == "")) = true
  · simp only [hdc, if_true]
    by_cases hhit : (getCachedShader st.cache disk env.mtimeOfPath r.sourceName
        (calculateSourceHash hasher r.source r.options)).hit = true
    · simp only [hhit, if_true]
      exact ⟨fun _ => ⟨rfl, rfl, rfl, rfl, rfl⟩,
        fun h => absurd h (by simp [extractReflectionData])⟩
    · simp only [bool_eq_false_of_not_true hhit, Bool.false_eq_true, if_false]
      by_cases hres : (backendCompile { st with cache :=
          (getCachedShader st.cache disk env.mtimeOfPath r.sourceName
            (calculateSourceHash hasher r.source r.options)).cache } env r).success = true
      · rw [compileFromSourceMiss_ok hasher env _ disk r hres]
        refine ⟨fun _ => ⟨rfl, rfl, rfl, rfl, rfl⟩, fun h => ?_⟩
        rw [extractReflectionData_success] at h
        rw [backendCompile_cache_irrel] at hres
        rw [backendCompile_cache_irrel] at h
        rw [hres] at h
        cases h
      · have hres2 := bool_eq_false_of_not_true hres
        rw [compileFromSourceMiss_fail hasher env _ disk r hres2]
        exact ⟨fun h => absurd h hres, fun _ => backendCompile_cache_irrel st _ env r⟩
  · simp only [bool_eq_false_of_not_true hdc, Bool.false_eq_true, if_false]
    by_cases hres : (backendCompile st env r).success = true
    · rw [compileFromSourceMiss_ok hasher env st disk r hres]
      refine ⟨fun _ => ⟨rfl, rfl, rfl, rfl, rfl⟩, fun h => ?_⟩
      rw [extractReflectionData_success] at h
      rw [hres] at h
      cases h
    · have hres2 := bool_eq_false_of_not_true hres
      rw [compileFromSourceMiss_fail hasher env st disk r hres2]
      exact ⟨fun h => absurd h hres, fun _ => rfl⟩

theorem C7_witness :
    (compileFromSource String.length envOk cstNoCache [] reqA).1.success = true ∧
      ((compileFromSource String.length envOk cstNoCache [] reqA).1.inputLayout = [] ∧
        (compileFromSource String.length envOk cstNoCache [] reqA).1.constantBufferBindings = [] ∧
        (compileFromSource String.length envOk cstNoCache [] reqA).1.textureBindings = [] ∧
        (compileFromSource String.length envOk cstNoCache [] reqA).1.samplerBindings = [] ∧
        (compileFromSource String.length envOk cstNoCache [] reqA).1.uavBindings = []) :=
  ⟨by decide, (C7_amended String.length envOk cstNoCache [] reqA).1 (by decide)⟩

/-- Claim C8: after a failed DXC initialization the compiler (whose flag
no compile ever changes back) reports 5.1 as the maximum supported shader
model, supports exactly the tiers encoded at or below 5.1, and reports
wave intrinsics, variable-rate shading, mesh shaders and raytracing all
unsupported. -/
theorem C8_legacy_fallback :
    getMaxSupportedShaderModel (useLegacyAfterInit false) = ShaderModel.SM_5_1
    ∧ (∀ m : ShaderModel,
        isShaderModelSupported (useLegacyAfterInit false) m = true ↔
          m.toNat ≤ ShaderModel.SM_5_1.toNat)
    ∧ supportsWaveIntrinsics (useLegacyAfterInit false) = false
    ∧ supportsVariableRateShading (useLegacyAfterInit false) = false
    ∧ supportsMeshShaders (useLegacyAfterInit false) = false
    ∧ supportsRaytracing (useLegacyAfterInit false) = false
    ∧ (∀ (hasher : String → Nat) (env : CompileEnv) (st : CompilerState)
        (disk : Disk) (r : CompileRequest),
        ((compileFromSource hasher env st disk r).2.1).useLegacyCompiler =
          st.useLegacyCompiler) := by
  refine ⟨rfl, ?_, rfl, rfl, rfl, rfl, ?_⟩
  · intro m
    cases m <;> simp [isShaderModelSupported, useLegacyAfterInit, ShaderModel.toNat]
  · intro hasher env st disk r
    unfold compileFromSource
    by_cases hdc : (st.cacheEnabled && !(r.sourceName == "")) = true
    · simp only [hdc, if_true]
      by_cases hhit : (getCachedShader st.cache disk env.mtimeOfPath r.sourceName
          (calculateSourceHash hasher r.source r.options)).hit = true
      · simp only [hhit, if_true]
      · simp only [bool_eq_false_of_not_true hhit, Bool.false_eq_true, if_false]
        unfold compileFromSourceMiss
        by_cases hres : (backendCompile { st with cache :=
            (getCachedShader st.cache disk env.mtimeOfPath r.sourceName
              (calculateSourceHash hasher r.source r.options)).cache } env r).success = true
        · simp only [hres, if_true]
          by_cases hdc2 : ((({ st with cache :=
              (getCachedShader st.cache disk env.mtimeOfPath r.sourceName
                (calculateSourceHash hasher r.source r.options)).cache } :
                CompilerState).cacheEnabled && !(r.sourceName == "")) = true)
          · simp only [hdc2, if_true]
          · simp only [bool_eq_false_of_not_true hdc2, Bool.false_eq_true, if_false]
        · simp only [bool_eq_false_of_not_true hres, Bool.false_eq_true, if_false]
    · simp only [bool_eq_false_of_not_true hdc, Bool.false_eq_true, if_false]
      unfold compileFromSourceMiss
      by_cases hres : (backendCompile st env r).success = true
      · simp only [hres, if_true]
        by_cases hdc2 : (st.cacheEnabled && !(r.sourceName == "")) = true
        · simp only [hdc2, if_true]
        · simp only [bool_eq_false_of_not_true hdc2, Bool.false_eq_true, if_false]
      · simp only [bool_eq_false_of_not_true hres, Bool.false_eq_true, if_false]

theorem C8_witness :
    ShaderModel.SM_5_0.toNat ≤ ShaderModel.SM_5_1.toNat ∧
      isShaderModelSupported (useLegacyAfterInit false) ShaderModel.SM_5_0 = true :=
  ⟨by decide, (C8_legacy_fallback.2.1 ShaderModel.SM_5_0).mpr (by decide)⟩

/-- Claim C9, counterexample: with a watched file newer than the last-seen
time and a failing recompilation, `CheckForReload` triggers the reload but
the last-seen timestamp stays unchanged (it is only updated inside
`LoadFromFile`'s success branch), so the next check with no further
timestamp change triggers recompilation again — refuting "updates the
last-seen timestamp regardless of whether the recompilation succeeds". -/
theorem C9_counterexample :
    (checkForReload env9fail s9).2 = true
    ∧ (checkForReload env9fail s9).1.lastFileTime = s9.lastFileTime
    ∧ (checkForReload env9fail s9).1.lastFileTime ≠ env9fail.fileTime s9.sourceFile
    ∧ (checkForReload env9fail (checkForReload env9fail s9).1).2 = true := by
  refine ⟨by decide, by decide, by decide, by decide⟩

/-- Claim C9, amended: `CheckForReload` triggers recompilation exactly
when hot reload is enabled, a source file is recorded, and its
modification time is strictly newer than the last-seen time; after a
detected change the last-seen time is updated only if recompilation
succeeds (and then an unchanged file does not re-trigger), while a failed
recompilation leaves the timestamp unchanged so the next check triggers
again. -/
theorem C9_amended (env : ShaderEnv) (s : ShaderState) :
    ((checkForReload env s).2 = true ↔
      (s.hotReloadEnabled = true ∧ s.sourceFile ≠ "" ∧
        s.lastFileTime < env.fileTime s.sourceFile))
    ∧ ((checkForReload env s).2 = true →
        (loadFromFile env s s.sourceFile s.entryPoint s.shaderType s.compileOptions).2 = true →
        ((checkForReload env s).1.lastFileTime = env.fileTime s.sourceFile ∧
          (checkForReload env (checkForReload env s).1).2 = false))
    ∧ ((checkForReload env s).2 = true →
        (loadFromFile env s s.sourceFile s.entryPoint s.shaderType s.compileOptions).2 = false →
        ((checkForReload env s).1.lastFileTime = s.lastFileTime ∧
          (checkForReload env (checkForReload env s).1).2 = true)) := by
  unfold checkForReload loadFromFile
  by_cases he : s.hotReloadEnabled = true
  · by_cases hf : s.sourceFile = ""
    · simp [he, hf]
    · have hfb : (s.sourceFile == "") = false := by
        cases hb : s.sourceFile == ""
        · rfl
        · exact absurd (by simpa using hb) hf
      by_cases ht : s.lastFileTime < env.fileTime s.sourceFile
      · simp only [he, hfb, Bool.not_true, Bool.false_eq_true, if_false, ht, if_true,
          Bool.not_false, Bool.true_eq_false]
        cases hc : env.fileContents s.sourceFile with
        | none =>
            simp only [hc]
            refine ⟨by simp [he, hf, ht], ?_, ?_⟩
            · intro _ hcontra
              cases hcontra
            · intro _ _
              refine ⟨rfl, ?_⟩
              simp [he, hfb, ht]
        | some text =>
            simp only [hc]
            cases hv : env.compileValid with
            | true =>
                simp only [hv, if_true]
                refine ⟨by simp [he, hf, ht], ?_, ?_⟩
                · intro _ _
                  refine ⟨rfl, ?_⟩
                  simp [he, hfb]
                · intro _ hcontra
                  cases hcontra
            | false =>
                simp only [hv, Bool.false_eq_true, if_false]
                refine ⟨by simp [he, hf, ht], ?_, ?_⟩
                · intro _ hcontra
                  cases hcontra
                · intro _ _
                  refine ⟨rfl, ?_⟩
                  simp [he, hfb, ht]
      · simp [he, hfb, ht]
  · have heb : s.hotReloadEnabled = false := bool_eq_false_of_not_true he
    simp [heb]

theorem C9_witness :
    ((checkForReload env9ok s9).2 = true ∧
      (loadFromFile env9ok s9 s9.sourceFile s9.entryPoint s9.shaderType
        s9.compileOptions).2 = true) ∧
    ((checkForReload env9ok s9).1.lastFileTime = env9ok.fileTime s9.sourceFile ∧
      (checkForReload env9ok (checkForReload env9ok s9).1).2 = false) :=
  ⟨⟨by decide, by decide⟩,
   (C9_amended env9ok s9).2.1 (by decide) (by decide)⟩

/-- Claim C10: the legacy backend's target profile is the hardcoded
`<stage-prefix>_5_0` string for each of the six supported stages,
independent of the options (in particular of the requested tier), and a
tier-5.1 request is routed to the legacy backend, hence compiled as 5.0. -/
theorem C10_legacy_profile :
    (legacyProfile ShaderType.Vertex = some "vs_5_0"
      ∧ legacyProfile ShaderType.Hull = some "hs_5_0"
      ∧ legacyProfile ShaderType.Domain = some "ds_5_0"
      ∧ legacyProfile ShaderType.Geometry = some "gs_5_0"
      ∧ legacyProfile ShaderType.Pixel = some "ps_5_0"
      ∧ legacyProfile ShaderType.Compute = some "cs_5_0")
    ∧ (∀ (r : CompileRequest) (m : ShaderModel) (d3d : String → D3DCompileOutcome),
        compileWithLegacyCompiler
          { r with options := { r.options with targetModel := m } } d3d =
          compileWithLegacyCompiler r d3d)
    ∧ (∀ (useLegacy : Bool) (o : CompileOptions), o.targetModel = ShaderModel.SM_5_1 →
        chooseBackend useLegacy o = Backend.Legacy) := by
  refine ⟨⟨rfl, rfl, rfl, rfl, rfl, rfl⟩, fun r m d3d => rfl, ?_⟩
  intro useLegacy o h
  cases useLegacy <;> simp [chooseBackend, h, ShaderModel.toNat]

theorem C10_witness :
    ({ targetModel := ShaderModel.SM_5_1 } : CompileOptions).targetModel =
        ShaderModel.SM_5_1 ∧
      chooseBackend true { targetModel := ShaderModel.SM_5_1 } = Backend.Legacy :=
  ⟨rfl, C10_legacy_profile.2.2 true { targetModel := ShaderModel.SM_5_1 } rfl⟩

end XeSS
